import Mathlib

/-!
Verification of the typed-worker correlation layer.

Shallow embedding of `src/src/index.ts` (the request/response correlation
engine and graceful-shutdown state machine of `createTypedWorker`) and of the
event-subscription machinery of the two variant modules
(`src/unnamed/part_000`, worker-sent events with `onWSE`/`offWSE`, and
`src/unnamed/part_001`, positional events with `onEvent`/`offEvent`).

The mutable closure state of `createTypedWorker` becomes an explicit record
`WorkerState`; JavaScript `Map` objects become association lists with the
same insertion-order semantics; promise continuations become opaque numeric
tokens, and invoking a continuation becomes emitting an `Effect` naming the
token, so that theorems can speak about which pending call was settled and
with what payload.
-/

namespace TypedWorker

/-- A request message sent to the worker (`MainMessage` in `src/src/index.ts`):
correlation id, action name, and the ordered argument list. -/
structure MainMessage (α : Type) where
  id : Nat
  name : String
  args : List α
deriving Repr, DecidableEq

/-- A response message from the worker (`WorkerMessage` in `src/src/index.ts`):
correlation id, action name, payload, and an error flag. -/
structure WorkerMessage (α : Type) where
  id : Nat
  name : String
  payload : α
  error : Bool
deriving Repr, DecidableEq

/-- Lookup in an association list with `Nat` keys, mirroring
`Map.prototype.get`: the first (and, for a JS `Map`, only) binding wins. -/
def mapLookup (k : Nat) : List (Nat × Nat) → Option Nat
  | [] => none
  | (k', v) :: rest => if k' = k then some v else mapLookup k rest

/-- Mirrors `Map.prototype.delete`: remove the binding for `k` (all bindings with key
`k`; a JS `Map` has at most one). -/
def mapDelete (k : Nat) (m : List (Nat × Nat)) : List (Nat × Nat) :=
  m.filter (fun p => p.1 ≠ k)

/-- Mirrors `Map.prototype.set`: update in place if the key exists, else append,
preserving insertion order. -/
def mapSet (k v : Nat) : List (Nat × Nat) → List (Nat × Nat)
  | [] => [(k, v)]
  | (k', v') :: rest => if k' = k then (k, v) :: rest else (k', v') :: mapSet k v rest

/-- The closure state of one `createTypedWorker` instance:
`worker` records whether the underlying `Worker` handle is non-null,
`terminateResolve`/`terminatePromise` whether those nullable slots hold a
value, `queue` is the pending-call registry (correlation id ↦ continuation
token), and `id` is the identifier counter. -/
structure WorkerState where
  worker : Bool
  terminateResolve : Bool
  terminatePromise : Bool
  queue : List (Nat × Nat)
  id : Nat
deriving Repr, DecidableEq

/-- State at module evaluation: no worker, no termination in flight, empty
registry, counter at its initial value `0`. -/
def initialState : WorkerState :=
  { worker := false, terminateResolve := false, terminatePromise := false,
    queue := [], id := 0 }

/-- Observable effects of running a handler. Invoking a stored `resolve`
(resp. `reject`) continuation is recorded as `resolveCall` (resp.
`rejectCall`) with the continuation's token; `rejectWithEvent` is the
rejection performed by `handleError` with the error event itself (the event
modelled as a `Nat` token); `logError` is the `console.error` call;
`resolveTerminate` is the resolution of the in-flight terminate promise. -/
inductive Effect (α : Type) where
  | resolveCall (token : Nat) (payload : α)
  | rejectCall (token : Nat) (payload : α)
  | rejectWithEvent (token : Nat) (e : Nat)
  | logError (e : Nat)
  | resolveTerminate
deriving Repr, DecidableEq

/-- The `generateId` closure, `() => ++id`. Returns the fresh identifier and the state
with the incremented counter. -/
def generateId (s : WorkerState) : Nat × WorkerState :=
  (s.id + 1, { s with id := s.id + 1 })

/-- The `getWorker` closure: lazily create the worker (and attach the listeners) if the
handle is null. -/
def getWorker (s : WorkerState) : WorkerState :=
  if s.worker then s else { s with worker := true }

/-- The `terminateWorker` function: if a worker exists, detach the listeners, terminate it
and null the handle. -/
def terminateWorker (s : WorkerState) : WorkerState :=
  if s.worker then { s with worker := false } else s

/-- The `checkTerminateComplete` function: when a terminate promise and resolver exist and
the queue is empty, null both slots, reset the id counter to `0`, tear the
worker down, and finally resolve (the returned `Bool` records whether the
terminate promise was resolved). -/
def checkTerminateComplete (s : WorkerState) : WorkerState × Bool :=
  if s.terminatePromise && s.terminateResolve && s.queue.isEmpty then
    (terminateWorker
      { s with terminateResolve := false, terminatePromise := false, id := 0 }, true)
  else (s, false)

/-- The effects contributed by `checkTerminateComplete`'s resolution flag. -/
def termEffects {α : Type} (b : Bool) : List (Effect α) :=
  if b then [Effect.resolveTerminate] else []

/-- The continuation invocation `data.error ? reject(data.payload) :
resolve(data.payload)` performed for the matched queue entry `tok`. -/
def settleEffect {α : Type} (tok : Nat) (m : WorkerMessage α) : Effect α :=
  if m.error then Effect.rejectCall tok m.payload else Effect.resolveCall tok m.payload

/-- The `handleMessage` listener: if the message id matches no pending entry, return at
once; otherwise remove the entry, invoke exactly its stored continuation with
the payload, then run `onTaskComplete` (= `checkTerminateComplete`). -/
def handleMessage {α : Type} (s : WorkerState) (m : WorkerMessage α) :
    WorkerState × List (Effect α) :=
  match mapLookup m.id s.queue with
  | none => (s, [])
  | some tok =>
    let s1 := { s with queue := mapDelete m.id s.queue }
    let r := checkTerminateComplete s1
    (r.1, settleEffect tok m :: termEffects r.2)

/-- The `handleError` listener: log the error event, reject every pending continuation
with the event, clear the queue, then run `onTaskComplete`. -/
def handleError {α : Type} (s : WorkerState) (e : Nat) :
    WorkerState × List (Effect α) :=
  let rejections := s.queue.map (fun p => Effect.rejectWithEvent p.2 e)
  let r := checkTerminateComplete { s with queue := [] }
  (r.1, Effect.logError e :: rejections ++ termEffects r.2)

/-- The four ways `terminate()` can return, distinguishing which promise the
caller receives: `noop` (worker null, immediate resolved promise),
`existing` (the already in-flight terminate promise), `immediate` (queue
empty: synchronous teardown, resolved promise), `draining` (a fresh
terminate promise that resolves when the queue drains). -/
inductive TerminateOutcome where
  | noop
  | existing
  | immediate
  | draining
deriving Repr, DecidableEq

/-- The `terminate()` entry point: no-op when the worker handle is null; return the existing
promise when already terminating; synchronous teardown when the queue is
empty; otherwise create the terminate promise/resolver pair and drain. -/
def terminate (s : WorkerState) : WorkerState × TerminateOutcome :=
  if !s.worker then (s, TerminateOutcome.noop)
  else if s.terminatePromise then (s, TerminateOutcome.existing)
  else if s.queue.isEmpty then (terminateWorker s, TerminateOutcome.immediate)
  else ({ s with terminatePromise := true, terminateResolve := true },
        TerminateOutcome.draining)

/-- Outcome of invoking the inner closure of `call`: either the promise is
rejected synchronously with an error message, or a fresh id was registered
and a request message was posted to the worker. -/
inductive CallOutcome (α : Type) where
  | rejected (msg : String)
  | registered (id : Nat) (posted : MainMessage α)
deriving Repr, DecidableEq

/-- The inner closure of `call(name)`, given the continuation-pair token
`tok` of the freshly created promise: if a terminate promise exists, reject
with the fixed message and return (no id allocated, no registry entry, no
post); otherwise allocate a fresh id, register the continuation pair, and
post the request message. -/
def callInner {α : Type} (s : WorkerState) (tok : Nat) (name : String)
    (args : List α) : WorkerState × CallOutcome α :=
  if s.terminatePromise then
    (s, CallOutcome.rejected "Worker is terminating, cannot accept new tasks")
  else
    let p := generateId s
    let s2 := { p.2 with queue := mapSet p.1 tok p.2.queue }
    (s2, CallOutcome.registered p.1 ⟨p.1, name, args⟩)

/-- Deliver a list of inbound response messages in order, accumulating the
effects. -/
def handleMessages {α : Type} (s : WorkerState) :
    List (WorkerMessage α) → WorkerState × List (Effect α)
  | [] => (s, [])
  | m :: ms =>
    let r := handleMessage s m
    let r2 := handleMessages r.1 ms
    (r2.1, r.2 ++ r2.2)

/-- Issue `n` identifiers in a row with `generateId`, returning them in
order of issue together with the final state. -/
def issueN (s : WorkerState) : Nat → List Nat × WorkerState
  | 0 => ([], s)
  | n + 1 =>
    let p := generateId s
    let rest := issueN p.2 n
    (p.1 :: rest.1, rest.2)

/-- The `set` trap of the proxy returned by `createTypedWorker`: it throws
unconditionally, before touching anything, so the state is returned
unchanged alongside the error. -/
def proxySet {α : Type} (s : WorkerState) (_prop : String) (_v : α) :
    WorkerState × Except String Unit :=
  (s, Except.error "Cannot set properties on typed worker proxy")

/-! ## Event-subscriber registry (variants `part_000` and `part_001`)

The `handles` / `eventListeners` map of the two event-capable variants:
event name ↦ `Set` of listeners. Listeners are opaque tokens (reference
identity becomes token equality); a `Set` is a duplicate-free list in
insertion order. A listener's runtime behaviour on one dispatch is a
function `Nat → Option Nat`: `none` means it returned normally, `some e`
means it threw the exception value `e`. -/

/-- The listener-set map, `Map<string, Set<listener>>`. -/
abbrev EventHandles := List (String × List Nat)

/-- Mirrors `Map.prototype.get` on the listener map. -/
def ehLookup (name : String) : EventHandles → Option (List Nat)
  | [] => none
  | (n, ls) :: rest => if n = name then some ls else ehLookup name rest

/-- Mirrors `Set.prototype.add`: no-op if the element is present, else append. -/
def setAdd (x : Nat) (xs : List Nat) : List Nat :=
  if x ∈ xs then xs else xs ++ [x]

/-- Mirrors `Set.prototype.delete`: remove the element (by identity) if
present; a no-op otherwise. -/
def setDelete (x : Nat) (xs : List Nat) : List Nat :=
  xs.filter (fun y => y ≠ x)

/-- The `onWSE` function of `part_000`: create the set for `name` if absent, then add the
listener. (`onEvent` in `part_001` is identical on the registry.) -/
def onWSE (h : EventHandles) (name : String) (l : Nat) : EventHandles :=
  match ehLookup name h with
  | none => h ++ [(name, [l])]
  | some _ => h.map (fun p => if p.1 = name then (p.1, setAdd l p.2) else p)

/-- The `offWSE` function of `part_000`: `if (!handles.has(name)) return;` then
`handles.get(name)!.delete(handler)`. -/
def offWSE (h : EventHandles) (name : String) (l : Nat) : EventHandles :=
  match ehLookup name h with
  | none => h
  | some _ =>
    h.map (fun p => if p.1 = name then (p.1, setDelete l p.2) else p)

/-- The `offEvent` function of `part_001`: `if (!eventListeners.has(name)) return;` then
`eventListeners.get(name)!.delete(listener)`. Same body as `offWSE`. -/
def offEvent (h : EventHandles) (name : String) (l : Nat) : EventHandles :=
  match ehLookup name h with
  | none => h
  | some _ =>
    h.map (fun p => if p.1 = name then (p.1, setDelete l p.2) else p)

/-- Result of dispatching one event occurrence to a listener set:
which listeners were invoked (in order), which exception values were caught
and logged by the dispatcher, and the exception, if any, that escaped to the
message-handling caller. -/
structure DispatchResult where
  invoked : List Nat
  logs : List Nat
  thrown : Option Nat
deriving Repr, DecidableEq

/-- Event dispatch of `part_000`'s `handleMessage`: each listener is invoked
inside `try { handle(payload) } catch { console.error(...) }`, so a throwing
listener is logged and iteration continues; nothing escapes. -/
def dispatchWSE (listeners : List Nat) (behav : Nat → Option Nat) : DispatchResult :=
  match listeners with
  | [] => ⟨[], [], none⟩
  | l :: rest =>
    let r := dispatchWSE rest behav
    match behav l with
    | none => ⟨l :: r.invoked, r.logs, none⟩
    | some e => ⟨l :: r.invoked, e :: r.logs, none⟩

/-- Event dispatch of `part_001`'s `handleMessage`:
`listeners.forEach((listener) => { listener(...data.payload) })` with no
try/catch, so a throwing listener aborts the `forEach` and the exception
propagates out of `handleMessage`. -/
def dispatchEvent (listeners : List Nat) (behav : Nat → Option Nat) : DispatchResult :=
  match listeners with
  | [] => ⟨[], [], none⟩
  | l :: rest =>
    match behav l with
    | some e => ⟨[l], [], some e⟩
    | none =>
      let r := dispatchEvent rest behav
      ⟨l :: r.invoked, r.logs, r.thrown⟩

/-! Supporting lemmas about the map operations and the handlers. -/

theorem terminateWorker_queue (s : WorkerState) : (terminateWorker s).queue = s.queue := by
  unfold terminateWorker
  split <;> rfl

theorem terminateWorker_id (s : WorkerState) : (terminateWorker s).id = s.id := by
  unfold terminateWorker
  split <;> rfl

theorem checkTerminateComplete_queue (s : WorkerState) :
    (checkTerminateComplete s).1.queue = s.queue := by
  unfold checkTerminateComplete
  split
  · rw [terminateWorker_queue]
  · rfl

theorem mapLookup_delete_ne {j k : Nat} (m : List (Nat × Nat)) (h : j ≠ k) :
    mapLookup j (mapDelete k m) = mapLookup j m := by
  induction m with
  | nil => rfl
  | cons p rest ih =>
    obtain ⟨k', v⟩ := p
    by_cases hk : k' = k
    · subst hk
      have hkj : ¬ (k' = j) := fun hh => h (hh ▸ rfl)
      simp [mapDelete, mapLookup, hkj] at ih ⊢
      exact ih
    · by_cases hj : k' = j
      · subst hj
        simp [mapDelete, mapLookup, hk]
      · simp [mapDelete, mapLookup, hk, hj] at ih ⊢
        exact ih

theorem handleMessage_miss {α : Type} (s : WorkerState) (m : WorkerMessage α)
    (h : mapLookup m.id s.queue = none) : handleMessage s m = (s, []) := by
  unfold handleMessage
  rw [h]

theorem handleMessage_hit_queue {α : Type} (s : WorkerState) (m : WorkerMessage α)
    (tok : Nat) (h : mapLookup m.id s.queue = some tok) :
    (handleMessage s m).1.queue = mapDelete m.id s.queue := by
  unfold handleMessage
  rw [h]
  exact checkTerminateComplete_queue _

theorem handleMessage_hit_effects {α : Type} (s : WorkerState) (m : WorkerMessage α)
    (tok : Nat) (h : mapLookup m.id s.queue = some tok) :
    settleEffect tok m ∈ (handleMessage s m).2 := by
  unfold handleMessage
  rw [h]
  exact List.mem_cons_self _ _

theorem handleMessage_lookup_ne {α : Type} (s : WorkerState) (m : WorkerMessage α)
    (j : Nat) (h : j ≠ m.id) :
    mapLookup j (handleMessage s m).1.queue = mapLookup j s.queue := by
  cases hl : mapLookup m.id s.queue with
  | none => rw [handleMessage_miss s m hl]
  | some tok =>
    rw [handleMessage_hit_queue s m tok hl]
    exact mapLookup_delete_ne s.queue h

/-- C8: a response whose identifier matches no pending entry is silently
discarded: `handleMessage` returns the state completely unchanged (the
pending-call registry, the identifier counter, the terminate promise and
resolver slots and the worker handle are all exactly as before) and performs
no effect at all — no continuation is invoked, nothing is logged, nothing is
resolved. -/
theorem C8_unmatched_response_ignored {α : Type} (s : WorkerState)
    (m : WorkerMessage α) (h : mapLookup m.id s.queue = none) :
    handleMessage s m = (s, []) :=
  handleMessage_miss s m h

/-- Witness for C8 at a concrete state: a stale response with id `7` arrives
while only ids `1` and `2` are pending; the handler is a no-op. -/
theorem C8_witness :
    handleMessage
        { worker := true, terminateResolve := false, terminatePromise := false,
          queue := [(1, 101), (2, 102)], id := 2 }
        (⟨7, "add", (5 : Nat), false⟩ : WorkerMessage Nat) =
      ({ worker := true, terminateResolve := false, terminatePromise := false,
         queue := [(1, 101), (2, 102)], id := 2 }, []) :=
  C8_unmatched_response_ignored _ _ (by decide)

/-- C2: a call attempted while a terminate promise is in flight (the shutdown
coordinator is draining) is rejected synchronously with the fixed message
`Worker is terminating, cannot accept new tasks`; the state is returned
unchanged, so no registry entry is created and no identifier is consumed, and
the outcome is not `registered`, so no request message is posted to the
transport. The surrounding `call(name)` invocation only runs `getWorker`,
which is the identity whenever the worker handle already exists (as it does
while draining). -/
theorem C2_call_rejected_while_draining {α : Type} (s : WorkerState) (tok : Nat)
    (name : String) (args : List α) (h : s.terminatePromise = true) :
    callInner s tok name args =
      (s, CallOutcome.rejected "Worker is terminating, cannot accept new tasks") ∧
    (s.worker = true → getWorker s = s) := by
  constructor
  · unfold callInner
    rw [h]
    simp
  · intro hw
    unfold getWorker
    rw [hw]
    simp

/-- Witness for C2: a concrete draining state with one pending call rejects a
new call attempt and keeps its registry and counter intact. -/
theorem C2_witness :
    callInner
        { worker := true, terminateResolve := true, terminatePromise := true,
          queue := [(1, 101)], id := 1 }
        55 "add" [(2 : Nat), 3] =
      ({ worker := true, terminateResolve := true, terminatePromise := true,
         queue := [(1, 101)], id := 1 },
       CallOutcome.rejected "Worker is terminating, cannot accept new tasks") :=
  (C2_call_rejected_while_draining _ 55 "add" [2, 3] (by decide)).1

/-- C3: a transport-level error makes `handleError` reject every call that
was pending (each stored failure continuation receives the error event as
reason) and leaves the pending-call registry exactly empty immediately
afterwards. The rejection reasons are computed from the registry as it stood
when the handler started — the snapshot the spec describes — and the
`logError` effect records the `console.error` call. -/
theorem C3_transport_error_fails_all {α : Type} (s : WorkerState) (e : Nat) :
    (handleError (α := α) s e).1.queue = [] ∧
    ∀ p ∈ s.queue, Effect.rejectWithEvent p.2 e ∈ (handleError (α := α) s e).2 := by
  constructor
  · unfold handleError
    rw [checkTerminateComplete_queue]
  · intro p hp
    unfold handleError
    refine List.mem_cons_of_mem _ (List.mem_append_left _ ?_)
    exact List.mem_map.mpr ⟨p, hp, rfl⟩

/-- Witness for C3: with two calls pending, a transport error empties the
registry and both stored failure continuations are invoked with the error. -/
theorem C3_witness :
    (handleError (α := Nat)
        { worker := true, terminateResolve := false, terminatePromise := false,
          queue := [(1, 101), (2, 102)], id := 2 } 9).1.queue = [] ∧
    Effect.rejectWithEvent 101 9 ∈
      (handleError (α := Nat)
        { worker := true, terminateResolve := false, terminatePromise := false,
          queue := [(1, 101), (2, 102)], id := 2 } 9).2 := by
  refine ⟨(C3_transport_error_fails_all _ 9).1, ?_⟩
  exact (C3_transport_error_fails_all _ 9).2 (1, 101) (by decide)

/-- C5: the `terminate()` state machine. With a null worker handle it is an
immediate no-op; while already draining it returns the existing in-flight
terminate promise (state unchanged, so every concurrent `terminate()` shares
that one promise); with an empty registry it tears the worker down
synchronously and completes at once; otherwise it creates the terminate
promise/resolver pair and drains. Finally, `checkTerminateComplete` resolves
the completion signal exactly when a terminate promise and resolver exist and
the pending-call registry is empty. -/
theorem C5_terminate_state_machine (s : WorkerState) :
    (s.worker = false → terminate s = (s, TerminateOutcome.noop)) ∧
    (s.worker = true → s.terminatePromise = true →
       terminate s = (s, TerminateOutcome.existing)) ∧
    (s.worker = true → s.terminatePromise = false → s.queue = [] →
       terminate s = ({ s with worker := false }, TerminateOutcome.immediate)) ∧
    (s.worker = true → s.terminatePromise = false → s.queue ≠ [] →
       terminate s = ({ s with terminatePromise := true, terminateResolve := true },
                      TerminateOutcome.draining)) ∧
    ((checkTerminateComplete s).2 = true ↔
       s.terminatePromise = true ∧ s.terminateResolve = true ∧ s.queue = []) := by
  refine ⟨?_, ?_, ?_, ?_, ?_⟩
  · intro hw
    unfold terminate
    rw [hw]
    simp
  · intro hw hp
    unfold terminate
    rw [hw, hp]
    simp
  · intro hw hp hq
    unfold terminate terminateWorker
    rw [hw, hp, hq]
    simp
  · intro hw hp hq
    unfold terminate
    rw [hw, hp]
    simp [List.isEmpty_iff, hq]
  · unfold checkTerminateComplete
    constructor
    · intro h
      split at h
      · next hc =>
          simp only [Bool.and_eq_true, List.isEmpty_iff] at hc
          exact ⟨hc.1.1, hc.1.2, hc.2⟩
      · simp at h
    · rintro ⟨h1, h2, h3⟩
      simp [h1, h2, h3]

/-- Witness for C5: `terminate()` on the uninitialized state is a no-op. -/
theorem C5_witness : terminate initialState = (initialState, TerminateOutcome.noop) :=
  (C5_terminate_state_machine initialState).1 rfl

/-- C9: the `set` trap of the proxy returned by `createTypedWorker` throws
the fixed error `Cannot set properties on typed worker proxy` for every
property name and every assigned value, and leaves the state untouched. -/
theorem C9_proxy_surface_readonly {α : Type} (s : WorkerState) (prop : String)
    (v : α) :
    proxySet s prop v =
      (s, Except.error "Cannot set properties on typed worker proxy") :=
  rfl

theorem settle_mem_handleMessages {α : Type} (ms1 : List (WorkerMessage α)) :
    ∀ (s : WorkerState) (m : WorkerMessage α) (ms2 : List (WorkerMessage α)) (tok : Nat),
      mapLookup m.id s.queue = some tok →
      (∀ m' ∈ ms1, m'.id ≠ m.id) →
      settleEffect tok m ∈ (handleMessages s (ms1 ++ m :: ms2)).2 := by
  induction ms1 with
  | nil =>
    intro s m ms2 tok hpend _
    show settleEffect tok m ∈ (handleMessages s (m :: ms2)).2
    unfold handleMessages
    exact List.mem_append_left _ (handleMessage_hit_effects s m tok hpend)
  | cons m' ms1 ih =>
    intro s m ms2 tok hpend hbefore
    show settleEffect tok m ∈ (handleMessages s (m' :: (ms1 ++ m :: ms2))).2
    unfold handleMessages
    refine List.mem_append_right _ ?_
    refine ih _ m ms2 tok ?_ (fun x hx => hbefore x (List.mem_cons_of_mem _ hx))
    rw [handleMessage_lookup_ne s m' m.id
      (fun hh => hbefore m' (List.mem_cons_self _ _) hh.symm)]
    exact hpend

theorem handleMessages_frame {α : Type} (ms : List (WorkerMessage α)) :
    ∀ (s : WorkerState) (j : Nat), (∀ m' ∈ ms, m'.id ≠ j) →
      mapLookup j (handleMessages s ms).1.queue = mapLookup j s.queue := by
  induction ms with
  | nil => intro s j _; rfl
  | cons m ms ih =>
    intro s j hne
    show mapLookup j (handleMessages (handleMessage s m).1 ms).1.queue = _
    rw [ih _ j (fun x hx => hne x (List.mem_cons_of_mem _ hx))]
    exact handleMessage_lookup_ne s m j (fun hh => hne m (List.mem_cons_self _ _) hh.symm)

/-- C1: responses are correlated to pending calls purely by identifier,
independently of arrival order. If the pending-call registry maps `m.id` to
the continuation token `tok`, then delivering any batch of responses
`ms1 ++ m :: ms2` in which no response before `m` carries `m.id` invokes
exactly that call's stored continuation with `m`'s payload (`resolve` on a
success response, `reject` on an error response). Moreover every pending call
addressed by none of the delivered responses keeps its continuation pair
unchanged in the registry. -/
theorem C1_settle_by_id_out_of_order {α : Type} (s : WorkerState)
    (ms1 ms2 : List (WorkerMessage α)) (m : WorkerMessage α) (tok : Nat)
    (hpend : mapLookup m.id s.queue = some tok)
    (hbefore : ∀ m' ∈ ms1, m'.id ≠ m.id) :
    settleEffect tok m ∈ (handleMessages s (ms1 ++ m :: ms2)).2 ∧
    ∀ j, (∀ m' ∈ ms1 ++ m :: ms2, m'.id ≠ j) →
      mapLookup j (handleMessages s (ms1 ++ m :: ms2)).1.queue =
        mapLookup j s.queue :=
  ⟨settle_mem_handleMessages ms1 s m ms2 tok hpend hbefore,
   fun j hj => handleMessages_frame _ s j hj⟩

/-- Witness for C1: calls `1` and `2` are pending with continuation tokens
`101` and `102`; the responses arrive out of order (id `2` first). Call `1`'s
continuation `101` is still resolved with call `1`'s payload `10`, and the
untouched pending call `3` keeps its continuation `103`. -/
theorem C1_witness :
    settleEffect 101 (⟨1, "add", (10 : Nat), false⟩ : WorkerMessage Nat) ∈
      (handleMessages
        { worker := true, terminateResolve := false, terminatePromise := false,
          queue := [(1, 101), (2, 102), (3, 103)], id := 3 }
        ([⟨2, "add", 20, false⟩] ++ ⟨1, "add", 10, false⟩ :: [])).2 ∧
    mapLookup 3
      (handleMessages
        { worker := true, terminateResolve := false, terminatePromise := false,
          queue := [(1, 101), (2, 102), (3, 103)], id := 3 }
        ([⟨2, "add", (20 : Nat), false⟩] ++ ⟨1, "add", 10, false⟩ :: [])).1.queue =
      some 103 := by
  have h := C1_settle_by_id_out_of_order
    { worker := true, terminateResolve := false, terminatePromise := false,
      queue := [(1, 101), (2, 102), (3, 103)], id := 3 }
    [⟨2, "add", (20 : Nat), false⟩] [] ⟨1, "add", 10, false⟩ 101
    (by decide) (by decide)
  refine ⟨h.1, ?_⟩
  rw [h.2 3 (by decide)]
  decide

/-- C10: when the draining shutdown coordinator sees the last pending call
settle, all internal state is restored in the same step that resolves the
completion signal: the state returned alongside the `resolveTerminate` effect
already has the terminate promise and resolver slots nulled, the identifier
counter at `0` and the worker handle detached; the settlement effect precedes
the resolution of the terminate promise. Consequently a call issued
immediately afterwards is admitted rather than rejected: `getWorker` lazily
creates a fresh worker and the call registers under identifier `1`. -/
theorem C10_drain_completion_restores_state {α : Type} (s : WorkerState)
    (i tok : Nat) (nm : String) (p : α)
    (hp : s.terminatePromise = true) (hr : s.terminateResolve = true)
    (hq : s.queue = [(i, tok)]) :
    (handleMessage s (⟨i, nm, p, false⟩ : WorkerMessage α)).1 =
      { worker := false, terminateResolve := false, terminatePromise := false,
        queue := [], id := 0 } ∧
    (handleMessage s (⟨i, nm, p, false⟩ : WorkerMessage α)).2 =
      [Effect.resolveCall tok p, Effect.resolveTerminate] ∧
    ∀ (tok' : Nat) (nm' : String) (args : List α),
      callInner (getWorker (handleMessage s (⟨i, nm, p, false⟩ : WorkerMessage α)).1)
          tok' nm' args =
        ({ worker := true, terminateResolve := false, terminatePromise := false,
           queue := [(1, tok')], id := 1 }, CallOutcome.registered 1 ⟨1, nm', args⟩) := by
  obtain ⟨w, tr, tp, q, sid⟩ := s
  simp only at hp hr hq
  subst hp hr hq
  have hstate :
      (handleMessage
          (⟨w, true, true, [(i, tok)], sid⟩ : WorkerState)
          (⟨i, nm, p, false⟩ : WorkerMessage α)).1 =
        { worker := false, terminateResolve := false, terminatePromise := false,
          queue := [], id := 0 } := by
    cases w <;>
      simp [handleMessage, mapLookup, mapDelete, checkTerminateComplete,
        terminateWorker, List.filter]
  refine ⟨hstate, ?_, ?_⟩
  · cases w <;>
      simp [handleMessage, mapLookup, mapDelete, checkTerminateComplete,
        terminateWorker, termEffects, settleEffect, List.filter]
  · intro tok' nm' args
    rw [hstate]
    simp [getWorker, callInner, generateId, mapSet]

/-- Witness for C10: the last pending call (id `3`, token `55`) resolves
while draining; the returned state is fully reset and a follow-up call is
admitted with fresh identifier `1`. -/
theorem C10_witness :
    (handleMessage
        { worker := true, terminateResolve := true, terminatePromise := true,
          queue := [(3, 55)], id := 3 }
        (⟨3, "f", (9 : Nat), false⟩ : WorkerMessage Nat)).2 =
      [Effect.resolveCall 55 9, Effect.resolveTerminate] ∧
    callInner
        (getWorker
          (handleMessage
            { worker := true, terminateResolve := true, terminatePromise := true,
              queue := [(3, 55)], id := 3 }
            (⟨3, "f", (9 : Nat), false⟩ : WorkerMessage Nat)).1)
        77 "g" [(4 : Nat)] =
      ({ worker := true, terminateResolve := false, terminatePromise := false,
         queue := [(1, 77)], id := 1 }, CallOutcome.registered 1 ⟨1, "g", [4]⟩) := by
  have h := C10_drain_completion_restores_state
    { worker := true, terminateResolve := true, terminatePromise := true,
      queue := [(3, 55)], id := 3 } 3 55 "f" (9 : Nat) rfl rfl rfl
  exact ⟨h.2.1, h.2.2 77 "g" [4]⟩

theorem issueN_gt {n : Nat} : ∀ (s : WorkerState), ∀ i ∈ (issueN s n).1, s.id < i := by
  induction n with
  | zero => intro s i hi; simp [issueN] at hi
  | succ n ih =>
    intro s i hi
    unfold issueN at hi
    rcases List.mem_cons.mp hi with h | h
    · subst h
      exact Nat.lt_succ_self _
    · have h2 := ih { s with id := s.id + 1 } i h
      have h3 : ({ s with id := s.id + 1 } : WorkerState).id = s.id + 1 := rfl
      rw [h3] at h2
      omega

theorem issueN_pairwise (n : Nat) : ∀ (s : WorkerState),
    ((issueN s n).1.Pairwise (· < ·)) := by
  induction n with
  | zero => intro s; simp [issueN]
  | succ n ih =>
    intro s
    unfold issueN
    refine List.pairwise_cons.mpr ⟨?_, ih _⟩
    intro b hb
    exact issueN_gt _ b hb

/-- Counterexample for C4: a reachable execution in which `terminate()` tears
the channel down without resetting the identifier counter. Starting from the
initial state, one call is issued (taking the counter to `1`) and its
response is handled, leaving the registry empty; `terminate()` then takes the
synchronous empty-registry path: the worker is torn down (`worker` detached)
but the counter still reads `1`, not its initial value `0` — so the counter
is not reset on every teardown path of `terminate()`. -/
theorem C4_counterexample :
    (terminate
        (handleMessage
          (callInner (α := Nat) (getWorker initialState) 101 "add" [2, 3]).1
          (⟨1, "add", (5 : Nat), false⟩ : WorkerMessage Nat)).1).2 =
      TerminateOutcome.immediate ∧
    (terminate
        (handleMessage
          (callInner (α := Nat) (getWorker initialState) 101 "add" [2, 3]).1
          (⟨1, "add", (5 : Nat), false⟩ : WorkerMessage Nat)).1).1.worker = false ∧
    (terminate
        (handleMessage
          (callInner (α := Nat) (getWorker initialState) 101 "add" [2, 3]).1
          (⟨1, "add", (5 : Nat), false⟩ : WorkerMessage Nat)).1).1.id = 1 := by
  decide

/-- C4 as amended: the identifier generator issues a strictly increasing
sequence of positive identifiers between resets, and the counter is reset to
its initial value `0` by the teardown that `checkTerminateComplete` performs
when the registry drains during termination; however, on the synchronous
`terminate()` path taken with an empty pending-call registry the worker is
torn down with the counter left at its current value. -/
theorem C4_id_generator_monotonic_reset_on_drain (s : WorkerState) (n : Nat) :
    ((issueN s n).1.Pairwise (· < ·)) ∧
    (∀ i ∈ (issueN s n).1, 0 < i) ∧
    ((checkTerminateComplete s).2 = true → (checkTerminateComplete s).1.id = 0) ∧
    (s.worker = true → s.terminatePromise = false → s.queue = [] →
       (terminate s).1.worker = false ∧ (terminate s).1.id = s.id) := by
  refine ⟨issueN_pairwise n s, ?_, ?_, ?_⟩
  · intro i hi
    have := issueN_gt s i hi
    omega
  · intro h
    unfold checkTerminateComplete at h ⊢
    split at h
    · next hc =>
        rw [if_pos hc]
        exact terminateWorker_id _
    · simp at h
  · intro hw hp hq
    unfold terminate terminateWorker
    rw [hw, hp, hq]
    simp

/-- Witness for C4's amended theorem: issuing three identifiers from a state
whose counter reads `7` yields a strictly increasing positive sequence, and
the drain-path teardown from a draining state with an empty registry resets
the counter to `0` while the empty-registry `terminate()` path preserves it. -/
theorem C4_witness :
    ((issueN { worker := true, terminateResolve := true, terminatePromise := true,
               queue := [], id := 7 } 3).1.Pairwise (· < ·)) ∧
    (checkTerminateComplete
        { worker := true, terminateResolve := true, terminatePromise := true,
          queue := [], id := 7 }).1.id = 0 ∧
    (terminate
        { worker := true, terminateResolve := false, terminatePromise := false,
          queue := [], id := 7 }).1.id = 7 := by
  refine ⟨(C4_id_generator_monotonic_reset_on_drain _ 3).1, ?_, ?_⟩
  · exact (C4_id_generator_monotonic_reset_on_drain
      { worker := true, terminateResolve := true, terminatePromise := true,
        queue := [], id := 7 } 3).2.2.1 (by decide)
  · exact ((C4_id_generator_monotonic_reset_on_drain
      { worker := true, terminateResolve := false, terminatePromise := false,
        queue := [], id := 7 } 3).2.2.2 rfl rfl rfl).2

theorem dispatchWSE_invoked (listeners : List Nat) (behav : Nat → Option Nat) :
    (dispatchWSE listeners behav).invoked = listeners := by
  induction listeners with
  | nil => rfl
  | cons l rest ih =>
    unfold dispatchWSE
    cases hb : behav l <;> simp [hb, ih]

theorem dispatchWSE_thrown (listeners : List Nat) (behav : Nat → Option Nat) :
    (dispatchWSE listeners behav).thrown = none := by
  cases listeners with
  | nil => rfl
  | cons l rest =>
    unfold dispatchWSE
    cases hb : behav l <;> simp [hb]

theorem dispatchWSE_logs (listeners : List Nat) (behav : Nat → Option Nat) :
    (dispatchWSE listeners behav).logs = listeners.filterMap behav := by
  induction listeners with
  | nil => rfl
  | cons l rest ih =>
    unfold dispatchWSE
    cases hb : behav l <;> simp [hb, ih, List.filterMap_cons]

/-- Counterexample for C6: in the positional-event variant
(`src/unnamed/part_001`), event dispatch runs the listeners in a `forEach`
with no try/catch. With listeners `1` and `2` registered and listener `1`
throwing the exception value `99`, the exception escapes to the
message-handling caller (`thrown = some 99`, and nothing is logged) and
listener `2` is never invoked — contradicting the claim that a listener
exception is caught and logged and does not prevent remaining listeners from
running. -/
theorem C6_counterexample :
    (dispatchEvent [1, 2] (fun x => if x = 1 then some 99 else none)).thrown =
      some 99 ∧
    (dispatchEvent [1, 2] (fun x => if x = 1 then some 99 else none)).logs = [] ∧
    2 ∉ (dispatchEvent [1, 2] (fun x => if x = 1 then some 99 else none)).invoked := by
  decide

/-- C6 as amended: in the worker-sent-event variant (`src/unnamed/part_000`),
whose dispatch wraps each listener invocation in try/catch, an exception
thrown by any listener is caught and logged individually, every registered
listener for the occurrence is still invoked (in registration order), and no
exception propagates to the message-handling caller; in the positional-event
variant (`src/unnamed/part_001`) the dispatch has no try/catch, so a listener
exception propagates and prevents the remaining listeners from running. -/
theorem C6_wse_dispatch_contains_exceptions (listeners : List Nat)
    (behav : Nat → Option Nat) :
    (dispatchWSE listeners behav).invoked = listeners ∧
    (dispatchWSE listeners behav).thrown = none ∧
    (dispatchWSE listeners behav).logs = listeners.filterMap behav :=
  ⟨dispatchWSE_invoked listeners behav, dispatchWSE_thrown listeners behav,
   dispatchWSE_logs listeners behav⟩

theorem mem_setDelete (a x : Nat) (xs : List Nat) :
    a ∈ setDelete x xs ↔ a ∈ xs ∧ a ≠ x := by
  simp [setDelete]

theorem setDelete_eq_self (x : Nat) (xs : List Nat) (h : x ∉ xs) :
    setDelete x xs = xs := by
  refine List.filter_eq_self.mpr ?_
  intro a ha
  simp only [decide_eq_true_eq]
  exact fun hh => h (hh ▸ ha)

theorem ehLookup_cons (name n : String) (ls : List Nat) (rest : EventHandles) :
    ehLookup name ((n, ls) :: rest) =
      if n = name then some ls else ehLookup name rest := rfl

theorem ehLookup_off_map (h : EventHandles) (name : String) (l : Nat) :
    ehLookup name
        (h.map (fun p => if p.1 = name then (p.1, setDelete l p.2) else p)) =
      (ehLookup name h).map (setDelete l) := by
  induction h with
  | nil => rfl
  | cons p rest ih =>
    obtain ⟨n, ls⟩ := p
    by_cases hp : n = name
    · subst hp
      simp [ehLookup_cons, ih]
    · simp [ehLookup_cons, hp, ih]

theorem ehLookup_off_map_ne (h : EventHandles) (name n' : String) (l : Nat)
    (hne : n' ≠ name) :
    ehLookup n'
        (h.map (fun p => if p.1 = name then (p.1, setDelete l p.2) else p)) =
      ehLookup n' h := by
  induction h with
  | nil => rfl
  | cons p rest ih =>
    obtain ⟨n, ls⟩ := p
    by_cases hp : n = name
    · subst hp
      have hn : ¬ (n = n') := fun hh => hne (hh ▸ rfl)
      simp [ehLookup_cons, hn, ih]
    · by_cases hq : n = n'
      · subst hq
        simp [ehLookup_cons, hp]
      · simp [ehLookup_cons, hp, hq, ih]

theorem off_map_ne_all (rest : EventHandles) (name : String) (l : Nat)
    (hall : ∀ q ∈ rest, q.1 ≠ name) :
    rest.map (fun p => if p.1 = name then (p.1, setDelete l p.2) else p) =
      rest := by
  induction rest with
  | nil => rfl
  | cons q rest ih =>
    have hq : q.1 ≠ name := hall q (List.mem_cons_self _ _)
    simp only [List.map_cons, if_neg hq]
    rw [ih (fun x hx => hall x (List.mem_cons_of_mem _ hx))]

theorem off_map_eq_self (h : EventHandles) (name : String) (l : Nat)
    (hnd : (h.map Prod.fst).Nodup)
    (hl : ∀ ls, ehLookup name h = some ls → l ∉ ls) :
    h.map (fun p => if p.1 = name then (p.1, setDelete l p.2) else p) = h := by
  induction h with
  | nil => rfl
  | cons p rest ih =>
    obtain ⟨n, ls⟩ := p
    simp only [List.map_cons] at hnd ⊢
    by_cases hp : n = name
    · subst hp
      have hmem : l ∉ ls := hl ls (by simp [ehLookup_cons])
      have hrest : ∀ q ∈ rest, q.1 ≠ n := by
        intro q hq hcontra
        exact (List.nodup_cons.mp hnd).1 (hcontra ▸ List.mem_map_of_mem Prod.fst hq)
      rw [off_map_ne_all rest n l hrest]
      simp [setDelete_eq_self l ls hmem]
    · have hl' : ∀ ls', ehLookup name rest = some ls' → l ∉ ls' := by
        intro ls' hls'
        exact hl ls' (by simp [ehLookup_cons, hp, hls'])
      rw [ih (List.nodup_cons.mp hnd).2 hl']
      simp [hp]

/-- C7: `offWSE` (and the identical `offEvent` of the positional variant)
removes exactly the given listener from the set for the given event name:
afterwards that listener is absent and a dispatch over the resulting set no
longer invokes it; every other listener's membership for that name is
unchanged, and the sets for all other event names are untouched. When the
event name was never subscribed the call is a no-op returning the registry
unchanged (and, being a total function, raises nothing); likewise when the
listener is not in the set for that name the registry is returned unchanged. -/
theorem C7_unsubscribe_exact (h : EventHandles) (name : String) (l : Nat) :
    (∀ ls, ehLookup name (offWSE h name l) = some ls →
       l ∉ ls ∧ ∀ behav, l ∉ (dispatchWSE ls behav).invoked) ∧
    (∀ m, m ≠ l → ∀ ls ls', ehLookup name h = some ls →
       ehLookup name (offWSE h name l) = some ls' → (m ∈ ls' ↔ m ∈ ls)) ∧
    (∀ n', n' ≠ name → ehLookup n' (offWSE h name l) = ehLookup n' h) ∧
    (ehLookup name h = none → offWSE h name l = h) ∧
    ((h.map Prod.fst).Nodup → ∀ ls, ehLookup name h = some ls → l ∉ ls →
       offWSE h name l = h) ∧
    offEvent h name l = offWSE h name l := by
  cases hh : ehLookup name h with
  | none =>
    have hoff : offWSE h name l = h := by
      unfold offWSE
      rw [hh]
    refine ⟨?_, ?_, ?_, fun _ => hoff, ?_, ?_⟩
    · intro ls hls
      rw [hoff, hh] at hls
      cases hls
    · intro m hm ls ls' hls
      exact Option.noConfusion hls
    · intro n' _
      rw [hoff]
    · intro _ ls hls
      exact Option.noConfusion hls
    · unfold offEvent
      rw [hh, hoff]
  | some xs =>
    have hoff : offWSE h name l =
        h.map (fun p => if p.1 = name then (p.1, setDelete l p.2) else p) := by
      unfold offWSE
      rw [hh]
    have hlook : ehLookup name (offWSE h name l) = some (setDelete l xs) := by
      rw [hoff, ehLookup_off_map, hh]
      rfl
    refine ⟨?_, ?_, ?_, ?_, ?_, ?_⟩
    · intro ls hls
      rw [hlook] at hls
      injection hls with h1
      subst h1
      constructor
      · intro hmem
        exact ((mem_setDelete l l xs).mp hmem).2 rfl
      · intro behav hmem
        rw [dispatchWSE_invoked] at hmem
        exact ((mem_setDelete l l xs).mp hmem).2 rfl
    · intro m hm ls ls' hls hls'
      rw [hlook] at hls'
      injection hls with h1
      injection hls' with h2
      subst h1
      subst h2
      constructor
      · intro hmem
        exact ((mem_setDelete m l _).mp hmem).1
      · intro hmem
        exact (mem_setDelete m l _).mpr ⟨hmem, hm⟩
    · intro n' hn'
      rw [hoff]
      exact ehLookup_off_map_ne h name n' l hn'
    · intro hnone
      exact Option.noConfusion hnone
    · intro hnd ls hls hmem
      injection hls with h1
      subst h1
      rw [hoff]
      refine off_map_eq_self h name l hnd ?_
      intro ls' hls'
      rw [hh] at hls'
      injection hls' with h2
      subst h2
      exact hmem
    · unfold offEvent
      rw [hh, hoff]

/-- Witness for C7 at a concrete registry: removing listener `1` from event
`e` leaves `[2]` for `e`, keeps `[1]` for the unrelated event `f`, and
unsubscribing from the never-subscribed name `g` is a no-op. -/
theorem C7_witness :
    1 ∉ ([2] : List Nat) ∧
    (2 ∈ ([2] : List Nat) ↔ 2 ∈ ([1, 2] : List Nat)) ∧
    ehLookup "f" (offWSE [("e", [1, 2]), ("f", [1])] "e" 1) = some [1] ∧
    offWSE [("e", [1, 2]), ("f", [1])] "g" 1 = [("e", [1, 2]), ("f", [1])] := by
  refine ⟨?_, ?_, ?_, ?_⟩
  · exact ((C7_unsubscribe_exact [("e", [1, 2]), ("f", [1])] "e" 1).1 [2]
      (by decide)).1
  · exact (C7_unsubscribe_exact [("e", [1, 2]), ("f", [1])] "e" 1).2.1 2
      (by decide) [1, 2] [2] (by decide) (by decide)
  · rw [(C7_unsubscribe_exact [("e", [1, 2]), ("f", [1])] "e" 1).2.2.1 "f"
      (by decide)]
    decide
  · exact (C7_unsubscribe_exact [("e", [1, 2]), ("f", [1])] "g" 1).2.2.2.1
      (by decide)

end TypedWorker
